import Mathlib

/-!
Verification development for the voice Q/A dispatcher core
(src/voice_qa/qa_processor.py of the dsa-lc-agent repository).

The embedding translates the methods of class QAProcessor:
  - process_question            (lines 57-79)
  - _get_openai_response_with_mcp (lines 81-211)
  - _handle_function_calls      (lines 213-285)
  - _get_fallback_response      (lines 287-302)
together with the tool registry (the `functions` list, lines 85-181),
the fallback table (lines 46-55) and the default-username computation
from __init__ (line 34).

External collaborators are oracles:
  - the reasoning service (OpenAI chat completions) is a Script giving
    one scripted response per round trip, as a function of the message
    list sent with the request;
  - the LeetCode Data Client (leetcode_api_client.py) is a DataClient
    record whose operations return structured data or raise.
Effects are made observable through an explicit event trace: one
Event.svcCall per chat-completions request and one DcEvent per Data
Client invocation.  Exceptions are modelled with Except / ToolOutcome.
Python string operations strip / lower / substring containment are
translated to executable character-list functions.
-/

namespace VoiceQA

/-- Python str.strip: drop leading and trailing whitespace characters. -/
def trimChars (s : List Char) : List Char :=
  List.rdropWhile Char.isWhitespace (List.dropWhile Char.isWhitespace s)

/-- Python str.strip lifted to String. -/
def pyStrip (s : String) : String := ⟨trimChars s.data⟩

/-- Python str.lower (the source strings are ASCII). -/
def pyLower (s : String) : String := ⟨s.data.map Char.toLower⟩

/-- Occurrence of a needle somewhere in a haystack of characters,
scanning every suffix for a prefix match. -/
def infixAt (needle : List Char) : List Char → Bool
  | [] => needle.isEmpty
  | c :: rest => needle.isPrefixOf (c :: rest) || infixAt needle rest

/-- Python substring containment, `needle in hay`. -/
def containsSub (hay needle : String) : Bool :=
  infixAt needle.data hay.data

/-- Structured data exchanged with the Data Client and serialized into
tool turns by json.dumps; the concrete wire format is out of scope. -/
inductive Json where
  | str : String → Json
  | num : Int → Json
  | obj : List (String × Json) → Json
  | arr : List Json → Json
  | null : Json

/-- Error dictionary literal as built in _handle_function_calls. -/
def errObj (msg : String) : Json := .obj [("error", .str msg)]

/-- Keys of the parsed arguments object that the dispatch code reads
(function_args in the source).  A field is none when the key is absent
from the JSON object sent by the reasoning service. -/
structure Args where
  username : Option String := none
  title_slug : Option String := none
  keywords : Option String := none
  difficulty : Option String := none
  limit : Option Int := none
deriving DecidableEq

/-- Raw arguments string of a tool call: json.loads at line 230 either
yields a parsed object or raises, carrying the exception message. -/
inductive ArgsSrc where
  | malformed : String → ArgsSrc
  | parsed : Args → ArgsSrc
deriving DecidableEq

/-- Whether json.loads on this arguments string would raise. -/
def ArgsSrc.isMalformed : ArgsSrc → Bool
  | .malformed _ => true
  | .parsed _ => false

/-- One tool call object returned by the reasoning service
(tool_call.id, tool_call.function.name, tool_call.function.arguments). -/
structure ToolCall where
  id : String
  name : String
  arguments : ArgsSrc
deriving DecidableEq

/-- One chat-completions response message: content may be absent (None)
and tool_calls is the possibly empty list of requested tool calls. -/
structure ChatResponse where
  content : Option String
  tool_calls : List ToolCall
deriving DecidableEq

/-- Conversation roles used in the source. -/
inductive Role where
  | system | user | assistant | tool
deriving DecidableEq

/-- Content of one conversation turn: plain text, the assistant message
object appended verbatim at line 224, or a serialized tool result. -/
inductive TurnContent where
  | text : String → TurnContent
  | assistantMsg : ChatResponse → TurnContent
  | result : Json → TurnContent

/-- One entry of the messages list sent to the reasoning service. -/
structure Turn where
  role : Role
  content : TurnContent
  tool_call_id : Option String := none

/-- Outcome of invoking one Data Client operation: a returned value or
a raised exception with its message. -/
inductive ToolOutcome where
  | ok : Json → ToolOutcome
  | exn : String → ToolOutcome

/-- Data Client oracle: the five operations of LeetCodeAPIClient used
by the dispatch code.  Each may return data or raise. -/
structure DataClient where
  get_daily_challenge : ToolOutcome
  get_problem : String → ToolOutcome
  search_problems : String → String → Int → ToolOutcome
  get_user_profile : String → ToolOutcome
  get_recent_submissions : String → Int → ToolOutcome

/-- Result of one reasoning-service request: a response object or a
raised exception (network failure, malformed reply, ...). -/
inductive SvcResp where
  | ok : ChatResponse → SvcResp
  | raise : String → SvcResp

/-- Scripted reasoning service: a response for the decide-phase request
and one for the synthesize-phase request, each a function of the
message list sent with that request. -/
structure Script where
  decide : List Turn → SvcResp
  synth : List Turn → SvcResp

/-- Mutable attributes of QAProcessor that the modelled methods read:
use_openai and default_username, both fixed in __init__. -/
structure Config where
  use_openai : Bool
  default_username : String
deriving DecidableEq

/-- Default-username computation of __init__ line 34:
os.getenv with fallback, so the hard-coded name is used exactly when
the environment variable is absent (an empty value is kept). -/
def computeDefaultUsername (env : String → Option String) : String :=
  (env "LEETCODE_USERNAME").getD "dviresh1993"

/-- One Data Client invocation, recorded in the event trace. -/
inductive DcEvent where
  | daily : DcEvent
  | problem : String → DcEvent
  | search : String → String → Int → DcEvent
  | profile : String → DcEvent
  | subs : String → Int → DcEvent
deriving DecidableEq

/-- Observable external effect: a reasoning-service round trip (phase 1
is decide, phase 2 is synthesize) or a Data Client invocation. -/
inductive Event where
  | svcCall : Nat → Event
  | dc : DcEvent → Event
deriving DecidableEq

/-- Names of the five tool declarations advertised to the reasoning
service (the `functions` list, lines 85-181), with their required
parameters; descriptions, types, enums and defaults of the JSON schema
are advertisement-only metadata never read by the dispatch code. -/
structure ToolDecl where
  name : String
  required : List String
deriving DecidableEq

/-- Tool Registry, in source order. -/
def toolRegistry : List ToolDecl :=
  [ ⟨"get_daily_challenge", []⟩,
    ⟨"get_problem", ["title_slug"]⟩,
    ⟨"search_problems", []⟩,
    ⟨"get_user_profile", []⟩,
    ⟨"get_recent_submissions", []⟩ ]

/-- Whether a name matches one of the registered tool declarations. -/
def isRegistered (n : String) : Bool :=
  toolRegistry.any (fun d => d.name = n)

/-- Body of the try block at lines 232-260: the if/elif dispatch chain
selecting the Data Client operation, together with the Data Client
invocations it performs.  The missing-key access
function_args[\x22title_slug\x22] raises KeyError, modelled as an
outcome .exn carrying the missing key. -/
def runTool (cfg : Config) (dc : DataClient) (name : String) (args : Args) :
    ToolOutcome × List DcEvent :=
  if name = "get_daily_challenge" then
    (dc.get_daily_challenge, [.daily])
  else if name = "get_problem" then
    match args.title_slug with
    | some slug => (dc.get_problem slug, [.problem slug])
    | none => (.exn "title_slug", [])
  else if name = "search_problems" then
    let k := args.keywords.getD ""
    let d := args.difficulty.getD ""
    let l := args.limit.getD 5
    (dc.search_problems k d l, [.search k d l])
  else if name = "get_user_profile" then
    let username := args.username.getD cfg.default_username
    if username = "" then
      (.ok (errObj "No username provided and no default username set"), [])
    else
      (dc.get_user_profile username, [.profile username])
  else if name = "get_recent_submissions" then
    let username := args.username.getD cfg.default_username
    if username = "" then
      (.ok (errObj "No username provided and no default username set"), [])
    else
      let l := args.limit.getD 10
      (dc.get_recent_submissions username l, [.subs username l])
  else
    (.ok (errObj ("Unknown function: " ++ name)), [])

/-- Payload of the tool turn appended for one executed call: the result
value, or the except-branch conversion of a raised exception into an
error dictionary (lines 269-275). -/
def toolPayload (out : ToolOutcome) : Json :=
  match out with
  | .ok j => j
  | .exn m => errObj m

/-- Result of the tool-execution loop at lines 227-275. -/
structure ExecOut where
  abort : Option String
  turns : List Turn
  events : List DcEvent

/-- Tool-execution loop: each call first parses its arguments with
json.loads OUTSIDE the try block (line 230), so a malformed arguments
string raises and aborts the remaining calls; inside the try every
failure becomes that call its own error payload. -/
def execToolCalls (cfg : Config) (dc : DataClient) :
    List ToolCall → ExecOut
  | [] => ⟨none, [], []⟩
  | tc :: rest =>
    match tc.arguments with
    | .malformed msg => ⟨some msg, [], []⟩
    | .parsed args =>
      let ro := runTool cfg dc tc.name args
      let o := execToolCalls cfg dc rest
      ⟨o.abort,
       ⟨Role.tool, TurnContent.result (toolPayload ro.1), some tc.id⟩ :: o.turns,
       ro.2 ++ o.events⟩

/-- System instruction of the decide-phase request (lines 186-195). -/
def decideSystemPrompt : String :=
  "You are a helpful voice assistant with access to LeetCode data. Use the available functions when users ask about LeetCode problems, daily challenges, or coding questions. Give concise, conversational responses (1-3 sentences)."

/-- System instruction of the synthesize-phase request (lines 215-219). -/
def synthSystemPrompt : String :=
  "You are a helpful voice assistant. Give concise, conversational responses (1-3 sentences)."

/-- Messages of the decide-phase request. -/
def mkDecideMessages (q : String) : List Turn :=
  [ ⟨Role.system, TurnContent.text decideSystemPrompt, none⟩,
    ⟨Role.user, TurnContent.text q, none⟩ ]

/-- Messages of the synthesize-phase request (lines 215-225 plus the
tool turns appended by the loop): a fresh conversation built only from
the current question, the assistant message and the tool results. -/
def mkSynthMessages (q : String) (resp : ChatResponse) (toolTurns : List Turn) :
    List Turn :=
  ⟨Role.system, TurnContent.text synthSystemPrompt, none⟩ ::
  ⟨Role.user, TurnContent.text q, none⟩ ::
  ⟨Role.assistant, TurnContent.assistantMsg resp, none⟩ :: toolTurns

/-- Translation of _handle_function_calls (lines 213-285): run the tool
loop, then make the synthesize-phase request and strip its content.
Accessing .content when it is None raises (AttributeError), as does the
aborted loop; events record the Data Client calls made and the
synthesize round trip when it is reached. -/
def handle_function_calls (cfg : Config) (dc : DataClient) (script : Script)
    (resp : ChatResponse) (q : String) : Except String String × List Event :=
  match (execToolCalls cfg dc resp.tool_calls).abort with
  | some m => (.error m, (execToolCalls cfg dc resp.tool_calls).events.map Event.dc)
  | none =>
    match script.synth (mkSynthMessages q resp
        (execToolCalls cfg dc resp.tool_calls).turns) with
    | .raise m =>
      (.error m,
       (execToolCalls cfg dc resp.tool_calls).events.map Event.dc ++ [Event.svcCall 2])
    | .ok r2 =>
      match r2.content with
      | none =>
        (.error "NoneType has no attribute strip",
         (execToolCalls cfg dc resp.tool_calls).events.map Event.dc ++ [Event.svcCall 2])
      | some c =>
        (.ok (pyStrip c),
         (execToolCalls cfg dc resp.tool_calls).events.map Event.dc ++ [Event.svcCall 2])

/-- Translation of _get_openai_response_with_mcp (lines 81-211): one
decide-phase request; if the response carries tool calls, hand off to
handle_function_calls, otherwise strip and return its content.  The
enclosing try re-raises unchanged (lines 210-211). -/
def get_openai_response_with_mcp (cfg : Config) (dc : DataClient)
    (script : Script) (q : String) : Except String String × List Event :=
  match script.decide (mkDecideMessages q) with
  | .raise m => (.error m, [Event.svcCall 1])
  | .ok resp =>
    if resp.tool_calls.isEmpty then
      match resp.content with
      | none => (.error "NoneType has no attribute strip", [Event.svcCall 1])
      | some c => (.ok (pyStrip c), [Event.svcCall 1])
    else
      let h := handle_function_calls cfg dc script resp q
      (h.1, Event.svcCall 1 :: h.2)

/-- Fallback table of __init__ (lines 46-55), in insertion order. -/
def fallback_responses : List (String × String) :=
  [ ("hello", "Hello! I\x27m your voice assistant. I can help with LeetCode problems and general questions!"),
    ("hi", "Hi there! Ask me about LeetCode problems or any other questions!"),
    ("how are you", "I\x27m doing great! Ready to help with LeetCode or other questions. How can I assist you?"),
    ("what is your name", "I\x27m your voice assistant powered by AI with LeetCode integration."),
    ("goodbye", "Goodbye! It was nice talking with you."),
    ("bye", "Bye! Have a great day!"),
    ("thank you", "You\x27re welcome! Is there anything else I can help you with?"),
    ("thanks", "You\x27re welcome!") ]

/-- Trigger scan of _get_fallback_response (lines 292-294): iterate the
table in order and return the first reply whose trigger occurs as a
substring of the lowercased, stripped question. -/
def matchFallback (table : List (String × String)) (ql : String) :
    Option String :=
  match table with
  | [] => none
  | (k, r) :: rest =>
    if containsSub ql k then some r else matchFallback rest ql

/-- Interrogative-category reply (line 298). -/
def interrogativeReply : String :=
  "That\x27s an interesting question! I\x27d recommend checking reliable sources for detailed information on this topic."

/-- Arithmetic-category reply (line 300). -/
def mathReply : String :=
  "I can help with basic math, but I\x27d need my full capabilities for complex calculations."

/-- Default-category reply (line 302). -/
def defaultReply : String :=
  "I\x27m sorry, I need my AI capabilities to answer that properly. Please check your OpenAI API configuration."

/-- Category classification of lines 297-302, reached when no trigger
of the table matched. -/
def classifyCategory (ql : String) : String :=
  if ["what", "how", "why", "when", "where", "who"].any
      (fun w => containsSub ql w) then
    interrogativeReply
  else if ["calculate", "math", "plus", "minus"].any
      (fun w => containsSub ql w) then
    mathReply
  else
    defaultReply

/-- The three category replies. -/
def categoryReplies : List String :=
  [interrogativeReply, mathReply, defaultReply]

/-- Translation of _get_fallback_response (lines 287-302). -/
def get_fallback_response (q : String) : String :=
  let ql := pyStrip (pyLower q)
  match matchFallback fallback_responses ql with
  | some r => r
  | none => classifyCategory ql

/-- Fixed message returned for blank input (line 68). -/
def emptyQuestionMsg : String :=
  "I didn\x27t hear anything. Could you please repeat your question?"

/-- Answer together with the trace of external effects performed. -/
structure RunOut where
  answer : String
  events : List Event
deriving DecidableEq

/-- Translation of process_question (lines 57-79): reject blank input
with the fixed message; otherwise try the dispatcher when OpenAI is
configured, falling back to the local responder when it raises; when
OpenAI is not configured go straight to the local responder. -/
def process_question (cfg : Config) (dc : DataClient) (script : Script)
    (q : String) : RunOut :=
  if pyStrip q = "" then ⟨emptyQuestionMsg, []⟩
  else if cfg.use_openai then
    let h := get_openai_response_with_mcp cfg dc script q
    match h.1 with
    | .ok r => ⟨r, h.2⟩
    | .error _ => ⟨get_fallback_response q, h.2⟩
  else ⟨get_fallback_response q, []⟩

/-- State-passing form of process_question: the method reads the
attributes fixed in __init__ and assigns none of them, so the state
it returns is the state it received; the conversation it builds is
local to the call (mkDecideMessages / mkSynthMessages start from a
fixed fresh prefix). -/
def process_question_st (cfg : Config) (dc : DataClient) (script : Script)
    (q : String) : RunOut × Config :=
  (process_question cfg dc script q, cfg)

/-! Helper lemmas shared by the claim theorems. -/

/-- Stripping leading whitespace leaves a list whose own strip of
leading-then-trailing whitespace still has no leading whitespace. -/
theorem dropWhile_rdropWhile_dropWhile {α : Type} (p : α → Bool) (l : List α) :
    List.dropWhile p (List.rdropWhile p (List.dropWhile p l)) =
      List.rdropWhile p (List.dropWhile p l) := by
  rw [List.dropWhile_eq_self_iff]
  intro hl
  have hpre : (List.dropWhile p l).rdropWhile p <+: List.dropWhile p l :=
    List.rdropWhile_prefix p (List.dropWhile p l)
  have hlen : 0 < (List.dropWhile p l).length :=
    lt_of_lt_of_le hl hpre.length_le
  have hnot := List.dropWhile_get_zero_not (p := p) l hlen
  have hget := hpre.getElem (n := 0) hl
  simp only [List.get_eq_getElem] at hnot ⊢
  rw [hget]
  exact hnot

/-- Python strip is idempotent on character lists. -/
theorem trimChars_idem (s : List Char) :
    trimChars (trimChars s) = trimChars s := by
  unfold trimChars
  rw [dropWhile_rdropWhile_dropWhile, List.rdropWhile_idempotent]

/-- Python strip is idempotent on strings. -/
theorem pyStrip_idem (s : String) : pyStrip (pyStrip s) = pyStrip s := by
  unfold pyStrip
  exact congrArg String.mk (trimChars_idem s.data)

/-- Any reply produced by the trigger scan is a value of the table. -/
theorem matchFallback_mem {table : List (String × String)} {ql r : String}
    (h : matchFallback table ql = some r) : r ∈ table.map Prod.snd := by
  induction table with
  | nil => simp [matchFallback] at h
  | cons kv rest ih =>
    rw [matchFallback] at h
    by_cases hc : containsSub ql kv.1 = true
    · simp only [hc, if_pos] at h
      injection h with h
      simp [h]
    · simp only [hc, if_neg, Bool.not_eq_true] at h
      simp only [List.map_cons, List.mem_cons]
      exact Or.inr (ih h)

/-- The trigger scan is the first match of the table in its stated
order: it agrees with List.find? over the containment test. -/
theorem matchFallback_eq_find (table : List (String × String)) (ql : String) :
    matchFallback table ql =
      (table.find? fun kv => containsSub ql kv.1).map Prod.snd := by
  induction table with
  | nil => rfl
  | cons kv rest ih =>
    rw [matchFallback, List.find?]
    by_cases hc : containsSub ql kv.1 = true
    · simp [hc]
    · simp only [Bool.not_eq_true] at hc
      simp [hc, ih]

/-- When some trigger of the table occurs in the question, the scan
returns a reply. -/
theorem matchFallback_isSome {table : List (String × String)} {ql : String}
    (h : (table.any fun kv => containsSub ql kv.1) = true) :
    (matchFallback table ql).isSome := by
  induction table with
  | nil => simp at h
  | cons kv rest ih =>
    rw [matchFallback]
    by_cases hc : containsSub ql kv.1 = true
    · simp [hc]
    · simp only [Bool.not_eq_true] at hc
      simp only [List.any_cons, hc, Bool.false_or] at h
      simp [hc, ih h]

/-- Discriminator for reasoning-service round-trip events. -/
def isSvc : Event → Bool
  | .svcCall _ => true
  | .dc _ => false

/-- Number of reasoning-service round trips in a trace. -/
def countSvc (evs : List Event) : Nat := evs.countP isSvc

/-- Number of round trips of a given phase in a trace. -/
def countPhase (n : Nat) (evs : List Event) : Nat :=
  evs.countP fun e => decide (e = Event.svcCall n)

/-- Data Client events contribute no reasoning-service round trips. -/
theorem countSvc_map_dc (l : List DcEvent) : countSvc (l.map Event.dc) = 0 := by
  induction l with
  | nil => rfl
  | cons e rest ih =>
    simp only [List.map_cons, countSvc, List.countP_cons, isSvc] at *
    simp [ih]

/-- Data Client events contribute no round trips of any phase. -/
theorem countPhase_map_dc (n : Nat) (l : List DcEvent) :
    countPhase n (l.map Event.dc) = 0 := by
  induction l with
  | nil => rfl
  | cons e rest ih =>
    simp only [List.map_cons, countPhase, List.countP_cons] at *
    simp [ih]

/-- A round-trip event is never among mapped Data Client events. -/
theorem svc_not_mem_map_dc (n : Nat) (l : List DcEvent) :
    Event.svcCall n ∉ l.map Event.dc := by
  simp

/-- Counting round trips through a leading round-trip event. -/
theorem countSvc_cons_svc (n : Nat) (evs : List Event) :
    countSvc (Event.svcCall n :: evs) = countSvc evs + 1 := by
  simp [countSvc, List.countP_cons, isSvc]

/-- Counting round trips across concatenation. -/
theorem countSvc_append (a b : List Event) :
    countSvc (a ++ b) = countSvc a + countSvc b :=
  List.countP_append _ _ _

/-- Counting a phase through a leading event of the same phase. -/
theorem countPhase_cons_same (n : Nat) (evs : List Event) :
    countPhase n (Event.svcCall n :: evs) = countPhase n evs + 1 := by
  simp [countPhase, List.countP_cons]

/-- Counting a phase through a leading event of another phase. -/
theorem countPhase_cons_other (n m : Nat) (evs : List Event) (h : m ≠ n) :
    countPhase n (Event.svcCall m :: evs) = countPhase n evs := by
  simp [countPhase, List.countP_cons, h]

/-- Counting a phase across concatenation. -/
theorem countPhase_append (n : Nat) (a b : List Event) :
    countPhase n (a ++ b) = countPhase n a + countPhase n b :=
  List.countP_append _ _ _

/-- The three category replies cover the classification. -/
theorem classifyCategory_mem (ql : String) :
    classifyCategory ql ∈ categoryReplies := by
  unfold classifyCategory categoryReplies
  split
  · simp
  · split <;> simp

/-- Every string the fallback responder can return is non-empty and
already stripped. -/
theorem fallbackStrings_ok :
    ∀ r ∈ fallback_responses.map Prod.snd ++ categoryReplies,
      r ≠ "" ∧ pyStrip r = r := by decide

/-- The fallback responder returns a value of the fallback table or a
category reply. -/
theorem fallback_mem (q : String) :
    get_fallback_response q ∈
      fallback_responses.map Prod.snd ++ categoryReplies := by
  have hsplit : get_fallback_response q =
      match matchFallback fallback_responses (pyStrip (pyLower q)) with
      | some r => r
      | none => classifyCategory (pyStrip (pyLower q)) := rfl
  cases hm : matchFallback fallback_responses (pyStrip (pyLower q)) with
  | none =>
    rw [hsplit, hm]
    exact List.mem_append_right _ (classifyCategory_mem _)
  | some r =>
    rw [hsplit, hm]
    exact List.mem_append_left _ (matchFallback_mem hm)

/-- The fallback responder returns non-empty, stripped text. -/
theorem fallback_nonempty_trimmed (q : String) :
    get_fallback_response q ≠ "" ∧
      pyStrip (get_fallback_response q) = get_fallback_response q :=
  fallbackStrings_ok _ (fallback_mem q)

/-- A successful synthesize phase returns stripped text. -/
theorem handle_ok_trimmed {cfg : Config} {dc : DataClient} {script : Script}
    {resp : ChatResponse} {q r : String}
    (h : (handle_function_calls cfg dc script resp q).1 = .ok r) :
    pyStrip r = r := by
  cases habort : (execToolCalls cfg dc resp.tool_calls).abort with
  | some m => simp [handle_function_calls, habort] at h
  | none =>
    cases hs : script.synth (mkSynthMessages q resp
        (execToolCalls cfg dc resp.tool_calls).turns) with
    | raise m => simp [handle_function_calls, habort, hs] at h
    | ok r2 =>
      cases hc : r2.content with
      | none => simp [handle_function_calls, habort, hs, hc] at h
      | some c =>
        simp only [handle_function_calls, habort, hs, hc,
          Except.ok.injEq] at h
        rw [← h]
        exact pyStrip_idem c

/-- A successful dispatcher attempt returns stripped text. -/
theorem dispatcher_ok_trimmed {cfg : Config} {dc : DataClient}
    {script : Script} {q r : String}
    (h : (get_openai_response_with_mcp cfg dc script q).1 = .ok r) :
    pyStrip r = r := by
  cases hd : script.decide (mkDecideMessages q) with
  | raise m => simp [get_openai_response_with_mcp, hd] at h
  | ok resp =>
    cases he : resp.tool_calls.isEmpty with
    | true =>
      cases hc : resp.content with
      | none => simp [get_openai_response_with_mcp, hd, he, hc] at h
      | some c =>
        simp only [get_openai_response_with_mcp, hd, he, hc, if_true,
          Except.ok.injEq] at h
        rw [← h]
        exact pyStrip_idem c
    | false =>
      simp only [get_openai_response_with_mcp, hd, he,
        Bool.false_eq_true, if_false] at h
      exact handle_ok_trimmed h

/-- Event trace of one processed non-blank question with the reasoning
service configured, by case over the decide response and the loop. -/
theorem events_char (cfg : Config) (dc : DataClient) (script : Script)
    (q : String) (hu : cfg.use_openai = true) (hq : ¬ pyStrip q = "") :
    (process_question cfg dc script q).events =
      match script.decide (mkDecideMessages q) with
      | .raise _ => [Event.svcCall 1]
      | .ok resp =>
        if resp.tool_calls.isEmpty then [Event.svcCall 1]
        else
          match (execToolCalls cfg dc resp.tool_calls).abort with
          | some _ =>
            Event.svcCall 1 ::
              (execToolCalls cfg dc resp.tool_calls).events.map Event.dc
          | none =>
            Event.svcCall 1 ::
              ((execToolCalls cfg dc resp.tool_calls).events.map Event.dc ++
                [Event.svcCall 2]) := by
  cases hd : script.decide (mkDecideMessages q) with
  | raise m =>
    simp [process_question, get_openai_response_with_mcp, hq, hu, hd]
  | ok resp =>
    cases he : resp.tool_calls.isEmpty with
    | true =>
      cases hc : resp.content <;>
        simp [process_question, get_openai_response_with_mcp, hq, hu, hd,
          he, hc]
    | false =>
      cases habort : (execToolCalls cfg dc resp.tool_calls).abort with
      | some m =>
        simp [process_question, get_openai_response_with_mcp,
          handle_function_calls, hq, hu, hd, he, habort]
      | none =>
        cases hs : script.synth (mkSynthMessages q resp
            (execToolCalls cfg dc resp.tool_calls).turns) with
        | raise m =>
          simp [process_question, get_openai_response_with_mcp,
            handle_function_calls, hq, hu, hd, he, habort, hs]
        | ok r2 =>
          cases hc : r2.content <;>
            simp [process_question, get_openai_response_with_mcp,
              handle_function_calls, hq, hu, hd, he, habort, hs, hc]

/-! Concrete fixtures used by witnesses and counterexamples. -/

/-- Data Client oracle whose operations all return an empty object,
matching the empty-result convention of leetcode_api_client.py. -/
def dcStub : DataClient :=
  ⟨.ok (.obj []), fun _ => .ok (.obj []), fun _ _ _ => .ok (.obj []),
   fun _ => .ok (.obj []), fun _ _ => .ok (.obj [])⟩

/-- Configuration with the reasoning service configured and the default
username of __init__ line 34. -/
def cfgOn : Config := ⟨true, "dviresh1993"⟩

/-- Configuration without a reasoning service. -/
def cfgOff : Config := ⟨false, "dviresh1993"⟩

/-- Reasoning-service script for runs that never reach the service. -/
def scriptUnused : Script :=
  ⟨fun _ => .raise "unused", fun _ => .raise "unused"⟩

/-- Arguments object with every key absent. -/
def argsEmpty : Args := {}

/-! Claim theorems. -/

/-- C2: a question that is empty or whitespace-only returns the fixed
prompt-for-repeat message, with no reasoning-service round trip and no
Data Client invocation. -/
theorem C2_blank_question (cfg : Config) (dc : DataClient) (script : Script)
    (q : String) (h : pyStrip q = "") :
    process_question cfg dc script q = ⟨emptyQuestionMsg, []⟩ := by
  simp [process_question, h]

/-- Witness for C2 at the whitespace-only question. -/
theorem C2_blank_question_witness :
    pyStrip "   " = "" ∧
      process_question cfgOn dcStub scriptUnused "   " =
        ⟨emptyQuestionMsg, []⟩ :=
  ⟨rfl, C2_blank_question cfgOn dcStub scriptUnused "   " rfl⟩

/-- C8: processing a question mutates no state, and a second run with
the same scripted reasoning service and the state returned by the
first run yields the same result. -/
theorem C8_deterministic_no_hidden_state (cfg : Config) (dc : DataClient)
    (script : Script) (q : String) :
    (process_question_st cfg dc script q).2 = cfg ∧
      (process_question_st (process_question_st cfg dc script q).2
          dc script q).1 =
        (process_question_st cfg dc script q).1 :=
  ⟨rfl, rfl⟩

/-- C7: with the reasoning service unconfigured the responder path
performs no external calls for any question, answering hello yields
exactly the reply mapped to the hello trigger, and trigger matching is
the first match of the table in its declared order. -/
theorem C7_fallback_total :
    (∀ (cfg : Config) (dc : DataClient) (script : Script) (q : String),
        cfg.use_openai = false →
        (process_question cfg dc script q).events = []) ∧
    (∀ (d : String) (dc : DataClient) (script : Script),
        (process_question ⟨false, d⟩ dc script "hello").answer =
          "Hello! I\x27m your voice assistant. I can help with LeetCode problems and general questions!") ∧
    (∀ (table : List (String × String)) (ql : String),
        matchFallback table ql =
          (table.find? fun kv => containsSub ql kv.1).map Prod.snd) := by
  refine ⟨?_, ?_, matchFallback_eq_find⟩
  · intro cfg dc script q h
    by_cases hq : pyStrip q = ""
    · simp [process_question, hq]
    · simp [process_question, hq, h]
  · intro d dc script
    rfl

/-- Witness for C7 on a concrete unconfigured processor. -/
theorem C7_fallback_total_witness :
    (process_question cfgOff dcStub scriptUnused "what time is it").events
      = [] :=
  C7_fallback_total.1 cfgOff dcStub scriptUnused "what time is it" rfl

/-- C9: the fallback reply is the first trigger of the table occurring
as a substring of the lowercased stripped question; the question this
matches the hi trigger inside a word; and category replies are not
returned when any trigger occurs. -/
theorem C9_substring_insertion_order :
    (∀ q : String, get_fallback_response q =
        match (fallback_responses.find? fun kv =>
            containsSub (pyStrip (pyLower q)) kv.1).map Prod.snd with
        | some r => r
        | none => classifyCategory (pyStrip (pyLower q))) ∧
    get_fallback_response "this" =
      "Hi there! Ask me about LeetCode problems or any other questions!" ∧
    (∀ q : String,
      (fallback_responses.any fun kv =>
          containsSub (pyStrip (pyLower q)) kv.1) = true →
      get_fallback_response q ∉ categoryReplies) := by
  have hsplit : ∀ q : String, get_fallback_response q =
      match matchFallback fallback_responses (pyStrip (pyLower q)) with
      | some r => r
      | none => classifyCategory (pyStrip (pyLower q)) := fun _ => rfl
  refine ⟨?_, rfl, ?_⟩
  · intro q
    rw [hsplit q, matchFallback_eq_find]
  · intro q h
    have hsome := matchFallback_isSome h
    obtain ⟨r, hm⟩ := Option.isSome_iff_exists.mp hsome
    have hval : get_fallback_response q = r := by rw [hsplit q, hm]
    rw [hval]
    have hmem := matchFallback_mem hm
    simp only [fallback_responses, List.map_cons, List.map_nil,
      List.mem_cons, List.not_mem_nil, or_false] at hmem
    rcases hmem with rfl | rfl | rfl | rfl | rfl | rfl | rfl | rfl <;> decide

/-- Witness for C9: the question this contains the hi trigger, so the
category replies are not reachable. -/
theorem C9_substring_insertion_order_witness :
    (fallback_responses.any fun kv =>
        containsSub (pyStrip (pyLower "this")) kv.1) = true ∧
      get_fallback_response "this" ∉ categoryReplies :=
  ⟨by decide, C9_substring_insertion_order.2.2 "this" (by decide)⟩

/-- Reasoning-service script whose decide phase succeeds with empty
content and no tool calls. -/
def scriptBlankContent : Script :=
  ⟨fun _ => .ok ⟨some "", []⟩, fun _ => .raise "unused"⟩

/-- Counterexample to C1: a non-blank question for which the dispatcher
succeeds with empty content makes process_question return the empty
string, and the fallback responder is not consulted. -/
theorem C1_empty_answer_cex :
    pyStrip "two sum" ≠ "" ∧
    (process_question cfgOn dcStub scriptBlankContent "two sum").answer
      = "" ∧
    (process_question cfgOn dcStub scriptBlankContent "two sum").answer
      ≠ get_fallback_response "two sum" :=
  ⟨by decide, rfl, by decide⟩

/-- C1 (amended): for every non-blank question the answer is stripped
text, and it can be empty only when the reasoning service is configured
and the dispatcher succeeded with content that strips to the empty
string; in that case the empty string is returned as is, without
routing to the fallback responder. -/
theorem C1_trimmed_answer (cfg : Config) (dc : DataClient) (script : Script)
    (q : String) (h : pyStrip q ≠ "") :
    pyStrip (process_question cfg dc script q).answer =
      (process_question cfg dc script q).answer ∧
    ((process_question cfg dc script q).answer = "" →
      cfg.use_openai = true ∧
        (get_openai_response_with_mcp cfg dc script q).1 = Except.ok "") := by
  cases hu : cfg.use_openai with
  | false =>
    have hpq : process_question cfg dc script q =
        ⟨get_fallback_response q, []⟩ := by
      simp [process_question, h, hu]
    rw [hpq]
    exact ⟨(fallback_nonempty_trimmed q).2,
      fun habs => absurd habs (fallback_nonempty_trimmed q).1⟩
  | true =>
    cases hro : (get_openai_response_with_mcp cfg dc script q).1 with
    | error e =>
      have hpq : process_question cfg dc script q =
          ⟨get_fallback_response q,
           (get_openai_response_with_mcp cfg dc script q).2⟩ := by
        simp [process_question, h, hu, hro]
      rw [hpq]
      exact ⟨(fallback_nonempty_trimmed q).2,
        fun habs => absurd habs (fallback_nonempty_trimmed q).1⟩
    | ok r =>
      have hpq : process_question cfg dc script q =
          ⟨r, (get_openai_response_with_mcp cfg dc script q).2⟩ := by
        simp [process_question, h, hu, hro]
      rw [hpq]
      refine ⟨dispatcher_ok_trimmed hro, fun habs => ⟨rfl, ?_⟩⟩
      exact congrArg Except.ok (show r = "" from habs)

/-- Witness for C1 (amended) at a fallback-only run. -/
theorem C1_trimmed_answer_witness :
    pyStrip (process_question cfgOff dcStub scriptUnused "hello").answer =
      (process_question cfgOff dcStub scriptUnused "hello").answer :=
  (C1_trimmed_answer cfgOff dcStub scriptUnused "hello" (by decide)).1

/-- C5: on the user-profile and recent-submissions tools with the
username argument absent, an empty default identity produces exactly
the no-username error payload with no Data Client invocation, while a
non-empty default identity is substituted and the Data Client is
invoked with it. -/
theorem C5_username_fallback (cfg : Config) (dc : DataClient) (args : Args)
    (n : String)
    (hn : n = "get_user_profile" ∨ n = "get_recent_submissions")
    (hu : args.username = none) :
    (cfg.default_username = "" →
      runTool cfg dc n args =
        (.ok (errObj "No username provided and no default username set"),
         [])) ∧
    (cfg.default_username ≠ "" →
      runTool cfg dc n args =
        if n = "get_user_profile" then
          (dc.get_user_profile cfg.default_username,
           [.profile cfg.default_username])
        else
          (dc.get_recent_submissions cfg.default_username
             (args.limit.getD 10),
           [.subs cfg.default_username (args.limit.getD 10)])) := by
  rcases hn with rfl | rfl <;> constructor <;> intro hd <;>
    simp [runTool, hu, hd]

/-- Witness for C5 with no default identity configured. -/
theorem C5_username_fallback_witness :
    runTool ⟨true, ""⟩ dcStub "get_recent_submissions" argsEmpty =
      (.ok (errObj "No username provided and no default username set"),
       []) :=
  (C5_username_fallback ⟨true, ""⟩ dcStub argsEmpty
    "get_recent_submissions" (Or.inr rfl) rfl).1 rfl

/-- C4: a tool call whose name matches none of the five registered
declarations causes no Data Client invocation; its tool turn carries
the unknown-function error payload under its correlation id; and the
request as a whole still completes through the synthesize phase,
returning its text. -/
theorem C4_unknown_tool (cfg : Config) (dc : DataClient) (tc : ToolCall)
    (args : Args) (hargs : tc.arguments = .parsed args)
    (hname : isRegistered tc.name = false) :
    runTool cfg dc tc.name args =
      (.ok (errObj ("Unknown function: " ++ tc.name)), []) ∧
    execToolCalls cfg dc [tc] =
      ⟨none,
       [⟨Role.tool,
         TurnContent.result (errObj ("Unknown function: " ++ tc.name)),
         some tc.id⟩],
       []⟩ ∧
    (∀ (script : Script) (q c : String) (tcs2 : List ToolCall),
      cfg.use_openai = true → pyStrip q ≠ "" →
      script.decide (mkDecideMessages q) = .ok ⟨none, [tc]⟩ →
      script.synth (mkSynthMessages q ⟨none, [tc]⟩
          (execToolCalls cfg dc [tc]).turns) = .ok ⟨some c, tcs2⟩ →
      process_question cfg dc script q =
        ⟨pyStrip c, [Event.svcCall 1, Event.svcCall 2]⟩) := by
  have h1 : ¬ tc.name = "get_daily_challenge" := fun hx => by
    simp [isRegistered, toolRegistry, hx] at hname
  have h2 : ¬ tc.name = "get_problem" := fun hx => by
    simp [isRegistered, toolRegistry, hx] at hname
  have h3 : ¬ tc.name = "search_problems" := fun hx => by
    simp [isRegistered, toolRegistry, hx] at hname
  have h4 : ¬ tc.name = "get_user_profile" := fun hx => by
    simp [isRegistered, toolRegistry, hx] at hname
  have h5 : ¬ tc.name = "get_recent_submissions" := fun hx => by
    simp [isRegistered, toolRegistry, hx] at hname
  have hrun : runTool cfg dc tc.name args =
      (.ok (errObj ("Unknown function: " ++ tc.name)), []) := by
    simp [runTool, h1, h2, h3, h4, h5]
  have hexec : execToolCalls cfg dc [tc] =
      ⟨none,
       [⟨Role.tool,
         TurnContent.result (errObj ("Unknown function: " ++ tc.name)),
         some tc.id⟩],
       []⟩ := by
    simp [execToolCalls, hargs, hrun, toolPayload]
  refine ⟨hrun, hexec, ?_⟩
  intro script q c tcs2 hu hq hdec hsynth
  rw [hexec] at hsynth
  have hhandle : handle_function_calls cfg dc script ⟨none, [tc]⟩ q =
      (.ok (pyStrip c), [Event.svcCall 2]) := by
    simp [handle_function_calls, hexec, hsynth]
  simp [process_question, get_openai_response_with_mcp, hq, hu, hdec,
    hhandle]

/-- Tool call naming an unregistered tool. -/
def tcUnknown : ToolCall := ⟨"call_1", "get_motivation", .parsed argsEmpty⟩

/-- Script whose decide phase requests the unregistered tool and whose
synthesize phase answers with plain text. -/
def scriptUnknownTool : Script :=
  ⟨fun _ => .ok ⟨none, [tcUnknown]⟩, fun _ => .ok ⟨some "ok", []⟩⟩

/-- Witness for C4 on a concrete unregistered tool call. -/
theorem C4_unknown_tool_witness :
    process_question cfgOn dcStub scriptUnknownTool "tell me a joke" =
      ⟨"ok", [Event.svcCall 1, Event.svcCall 2]⟩ :=
  (C4_unknown_tool cfgOn dcStub tcUnknown argsEmpty rfl (by decide)).2.2
    scriptUnknownTool "tell me a joke" "ok" [] rfl (by decide) rfl rfl

/-- Counterexample to C10: with the default configuration (environment
provides no username, so the default identity is the non-empty
hard-coded name), a tool call whose arguments carry an explicitly empty
username still produces the no-username error payload, so the error
branch is reachable without the default identity being empty. -/
theorem C10_default_username_cex :
    computeDefaultUsername (fun _ => none) = "dviresh1993" ∧
    ("dviresh1993" : String) ≠ "" ∧
    runTool ⟨true, "dviresh1993"⟩ dcStub "get_user_profile"
        { username := some "" } =
      (.ok (errObj "No username provided and no default username set"),
       []) :=
  ⟨rfl, by decide, rfl⟩

/-- C10 (amended): the default identity falls back to the hard-coded
username whenever the environment provides none, and on the
user-profile and recent-submissions tools the no-username error payload
is produced exactly when the username argument, after substituting the
default identity for an absent key, is the empty string — so under the
default configuration it is unreachable for calls that omit the
username, but remains reachable for calls passing an explicitly empty
username. -/
theorem C10_default_username (env : String → Option String)
    (dc : DataClient) (b : Bool) (args : Args) (n : String)
    (hn : n = "get_user_profile" ∨ n = "get_recent_submissions") :
    (env "LEETCODE_USERNAME" = none →
      computeDefaultUsername env = "dviresh1993") ∧
    (runTool ⟨b, computeDefaultUsername env⟩ dc n args =
        (.ok (errObj "No username provided and no default username set"),
         [])
      ↔ args.username.getD (computeDefaultUsername env) = "") := by
  constructor
  · intro h
    simp [computeDefaultUsername, h]
  · rcases hn with rfl | rfl <;>
    · constructor
      · intro h
        by_cases hu : args.username.getD (computeDefaultUsername env) = ""
        · exact hu
        · simp [runTool, hu] at h
      · intro hu
        simp [runTool, hu]

/-- Witness for C10 (amended): under the default environment an
explicitly empty username argument yields the error payload. -/
theorem C10_default_username_witness :
    runTool ⟨true, computeDefaultUsername (fun _ => none)⟩ dcStub
        "get_user_profile" { username := some "" } =
      (.ok (errObj "No username provided and no default username set"),
       []) :=
  (C10_default_username (fun _ => none) dcStub true { username := some "" }
    "get_user_profile" (Or.inl rfl)).2.mpr rfl

/-- When every requested call has well-formed arguments the loop never
aborts and appends exactly one tool turn per call, correlated by id in
request order. -/
theorem execToolCalls_no_abort (cfg : Config) (dc : DataClient) :
    ∀ (tcs : List ToolCall),
      (∀ tc ∈ tcs, tc.arguments.isMalformed = false) →
      (execToolCalls cfg dc tcs).abort = none ∧
      (execToolCalls cfg dc tcs).turns.map Turn.tool_call_id =
        tcs.map (fun tc => some tc.id)
  | [], _ => by simp [execToolCalls]
  | tc :: rest, h => by
    have htc := h tc (by simp)
    have ihh := execToolCalls_no_abort cfg dc rest
      (fun x hx => h x (List.mem_cons_of_mem _ hx))
    cases ha : tc.arguments with
    | malformed m =>
      rw [ha] at htc
      simp [ArgsSrc.isMalformed] at htc
    | parsed args =>
      simp [execToolCalls, ha, ihh.1, ihh.2]

/-- C3 (amended): as long as every requested call carries well-formed
argument JSON, each failing call (Data Client failure, unknown name,
missing required argument) is isolated to its own tool turn — the loop
never aborts, every call receives exactly one tool turn under its id,
and the synthesize round trip still happens; a call whose arguments do
not parse, however, aborts the loop (see the counterexample). -/
theorem C3_tool_failures_isolated (cfg : Config) (dc : DataClient)
    (tcs : List ToolCall)
    (h : ∀ tc ∈ tcs, tc.arguments.isMalformed = false) :
    (execToolCalls cfg dc tcs).abort = none ∧
    (execToolCalls cfg dc tcs).turns.map Turn.tool_call_id =
      tcs.map (fun tc => some tc.id) ∧
    (∀ (script : Script) (q : String) (resp : ChatResponse),
      resp.tool_calls = tcs →
      Event.svcCall 2 ∈ (handle_function_calls cfg dc script resp q).2) := by
  refine ⟨(execToolCalls_no_abort cfg dc tcs h).1,
    (execToolCalls_no_abort cfg dc tcs h).2, ?_⟩
  intro script q resp hr
  subst hr
  have habort := (execToolCalls_no_abort cfg dc resp.tool_calls h).1
  cases hs : script.synth (mkSynthMessages q resp
      (execToolCalls cfg dc resp.tool_calls).turns) with
  | raise m => simp [handle_function_calls, habort, hs]
  | ok r2 =>
    cases hc : r2.content <;>
      simp [handle_function_calls, habort, hs, hc]

/-- Data Client oracle whose every operation raises. -/
def dcFail : DataClient :=
  ⟨.exn "ConnectionError", fun _ => .exn "ConnectionError",
   fun _ _ _ => .exn "ConnectionError", fun _ => .exn "ConnectionError",
   fun _ _ => .exn "ConnectionError"⟩

/-- Three requested calls that fail three different ways: a raising
Data Client operation, an unregistered name, and a missing required
argument. -/
def tcsMixed : List ToolCall :=
  [⟨"a", "get_daily_challenge", .parsed argsEmpty⟩,
   ⟨"b", "get_motivation", .parsed argsEmpty⟩,
   ⟨"c", "get_problem", .parsed argsEmpty⟩]

/-- Witness for C3 (amended): three differently failing calls each get
their own tool turn and the loop does not abort. -/
theorem C3_tool_failures_isolated_witness :
    (execToolCalls cfgOn dcFail tcsMixed).abort = none ∧
    (execToolCalls cfgOn dcFail tcsMixed).turns.map Turn.tool_call_id =
      tcsMixed.map (fun tc => some tc.id) :=
  ⟨(C3_tool_failures_isolated cfgOn dcFail tcsMixed (by decide)).1,
   (C3_tool_failures_isolated cfgOn dcFail tcsMixed (by decide)).2.1⟩

/-- Requested call whose arguments string is not valid JSON. -/
def tcMal : ToolCall := ⟨"call_a", "get_problem", .malformed "Expecting value"⟩

/-- Well-formed requested call following the malformed one. -/
def tcDaily : ToolCall := ⟨"call_b", "get_daily_challenge", .parsed argsEmpty⟩

/-- Script whose decide phase requests the malformed call first. -/
def scriptMalformed : Script :=
  ⟨fun _ => .ok ⟨none, [tcMal, tcDaily]⟩, fun _ => .ok ⟨some "unused", []⟩⟩

/-- Counterexample to C3 as stated: a single call with malformed
arguments aborts the loop before the sibling call gets any tool turn,
the synthesize phase never runs, and the whole request falls back. -/
theorem C3_malformed_args_cex :
    (execToolCalls cfgOn dcStub [tcMal, tcDaily]).abort =
      some "Expecting value" ∧
    (execToolCalls cfgOn dcStub [tcMal, tcDaily]).turns = [] ∧
    Event.svcCall 2 ∉
      (process_question cfgOn dcStub scriptMalformed "list problems").events ∧
    (process_question cfgOn dcStub scriptMalformed "list problems").answer =
      get_fallback_response "list problems" :=
  ⟨rfl, rfl, by decide, rfl⟩

/-- C6 (amended): every processed question makes at most two
reasoning-service round trips, and tool calls of the synthesize
response are never executed (when a synthesize round trip happens it is
the last external event); on the dispatcher path there is exactly one
decide round trip, and exactly one synthesize round trip if and only if
the decide phase succeeded with a non-empty tool-call list AND the loop
did not abort on malformed arguments (see the counterexample for the
abort case, where the original if-and-only-if fails). -/
theorem C6_round_trips (cfg : Config) (dc : DataClient) (script : Script)
    (q : String) :
    countSvc (process_question cfg dc script q).events ≤ 2 ∧
    (Event.svcCall 2 ∈ (process_question cfg dc script q).events →
      (process_question cfg dc script q).events.getLast? =
        some (Event.svcCall 2)) ∧
    (cfg.use_openai = true → pyStrip q ≠ "" →
      countPhase 1 (process_question cfg dc script q).events = 1 ∧
      (countPhase 2 (process_question cfg dc script q).events = 1 ↔
        ∃ resp, script.decide (mkDecideMessages q) = .ok resp ∧
          resp.tool_calls ≠ [] ∧
          (execToolCalls cfg dc resp.tool_calls).abort = none)) := by
  by_cases hq : pyStrip q = ""
  · have hpq : process_question cfg dc script q = ⟨emptyQuestionMsg, []⟩ := by
      simp [process_question, hq]
    rw [hpq]
    exact ⟨by simp [countSvc], by simp, fun _ hq2 => absurd hq hq2⟩
  cases hu : cfg.use_openai with
  | false =>
    have hpq : process_question cfg dc script q =
        ⟨get_fallback_response q, []⟩ := by
      simp [process_question, hq, hu]
    rw [hpq]
    exact ⟨by simp [countSvc], by simp, fun hu2 _ => absurd hu2 (by decide)⟩
  | true =>
    have hev := events_char cfg dc script q hu hq
    cases hd : script.decide (mkDecideMessages q) with
    | raise m =>
      rw [hd] at hev
      simp only [] at hev
      rw [hev]
      refine ⟨by decide, by decide, fun _ _ => ⟨by decide, ?_⟩⟩
      constructor
      · intro h1
        exact absurd h1 (by decide)
      · rintro ⟨resp, hresp, -, -⟩
        exact SvcResp.noConfusion hresp
    | ok resp =>
      cases he : resp.tool_calls.isEmpty with
      | true =>
        rw [hd] at hev
        simp only [he, if_true] at hev
        have hnil : resp.tool_calls = [] := by
          simpa [List.isEmpty_iff] using he
        rw [hev]
        refine ⟨by decide, by decide, fun _ _ => ⟨by decide, ?_⟩⟩
        constructor
        · intro h1
          exact absurd h1 (by decide)
        · rintro ⟨resp2, hresp2, hne, -⟩
          injection hresp2 with h2
          exact absurd (h2 ▸ hnil) hne
      | false =>
        cases habort : (execToolCalls cfg dc resp.tool_calls).abort with
        | some m =>
          rw [hd] at hev
          simp only [he, Bool.false_eq_true, if_false, habort] at hev
          rw [hev]
          refine ⟨?_, ?_, fun _ _ => ⟨?_, ?_⟩⟩
          · rw [countSvc_cons_svc, countSvc_map_dc]
            decide
          · intro hmem
            exact absurd hmem (by simp)
          · rw [countPhase_cons_same, countPhase_map_dc]
          · constructor
            · intro h1
              rw [countPhase_cons_other 2 1 _ (by decide),
                countPhase_map_dc] at h1
              exact absurd h1 (by decide)
            · rintro ⟨resp2, hresp2, -, habort2⟩
              injection hresp2 with h2
              rw [← h2, habort] at habort2
              exact Option.noConfusion habort2
        | none =>
          rw [hd] at hev
          simp only [he, Bool.false_eq_true, if_false, habort] at hev
          have hne : resp.tool_calls ≠ [] := by
            intro hnil
            rw [hnil] at he
            simp at he
          rw [hev]
          refine ⟨?_, fun _ => ?_, fun _ _ => ⟨?_, ?_⟩⟩
          · rw [countSvc_cons_svc, countSvc_append, countSvc_map_dc]
            decide
          · rw [← List.cons_append]
            exact List.getLast?_concat _
          · rw [countPhase_cons_same, countPhase_append, countPhase_map_dc]
            decide
          · constructor
            · intro _
              exact ⟨resp, rfl, hne, habort⟩
            · intro _
              rw [countPhase_cons_other 2 1 _ (by decide),
                countPhase_append, countPhase_map_dc]
              decide

/-- Script whose decide phase requests one well-formed tool call. -/
def scriptOneTool : Script :=
  ⟨fun _ => .ok ⟨none, [tcDaily]⟩, fun _ => .ok ⟨some "done", []⟩⟩

/-- Witness for C6: a run with one executed tool call makes exactly one
decide and one synthesize round trip. -/
theorem C6_round_trips_witness :
    countPhase 1 (process_question cfgOn dcStub scriptOneTool "daily").events
      = 1 ∧
    countPhase 2 (process_question cfgOn dcStub scriptOneTool "daily").events
      = 1 :=
  ⟨((C6_round_trips cfgOn dcStub scriptOneTool "daily").2.2 rfl
      (by decide)).1,
   ((C6_round_trips cfgOn dcStub scriptOneTool "daily").2.2 rfl
      (by decide)).2.mpr ⟨⟨none, [tcDaily]⟩, rfl, by decide, rfl⟩⟩

/-- Script whose decide phase requests only the malformed call. -/
def scriptMalOnly : Script :=
  ⟨fun _ => .ok ⟨none, [tcMal]⟩, fun _ => .ok ⟨some "unused", []⟩⟩

/-- Counterexample to C6 as stated: the decide phase returned a tool
call, yet no synthesize round trip happens, because the malformed
arguments abort the loop before the second request. -/
theorem C6_round_trips_cex :
    (∃ resp, scriptMalOnly.decide (mkDecideMessages "two sum") = .ok resp ∧
      resp.tool_calls ≠ []) ∧
    countPhase 2
      (process_question cfgOn dcStub scriptMalOnly "two sum").events = 0 :=
  ⟨⟨⟨none, [tcMal]⟩, rfl, by decide⟩, by decide⟩

end VoiceQA
